import Mathlib

/-!
A shallow embedding of the rider/order assignment and status-workflow engine of the
wild-wash-api repository (orders app: `models.py`, `serializers.py`, `signals.py`,
`views.py`, `management/commands/assign_pending_orders.py`, plus
`users/permissions.py` and `users/models.py`).

Conventions of the embedding:
* Django querysets over `User` / `Location` rows become Lean lists carried in an
  environment; `.filter(...)` is `List.filter`, `.first()` on a queryset ordered by
  `completed_jobs` is `firstMinBy` (the first row attaining the minimum, which models
  ascending ordering with an arbitrary-but-fixed tie order given by the row list).
  The `Location` model declares `Meta.ordering = [name]`, so the location list in the
  environment is taken in query order and `.first()` is `List.head?`.
* Python string truthiness (`if s:`) is `pyTruthy` (non-empty), `s.lower()` is
  `lowerStr` (kernel-reducible), Django `icontains` / Python `in` is `lowerContains`.
* Nullable columns are `Option`; `str(None)` in Python comparisons is `pyStr`.
* External calls (in-app `Notification.objects.create`, SMS sends) can raise; the
  environment carries one Boolean oracle per call site of `OrderUpdateView.patch`
  saying whether that call raises.  A call wrapped in `try/except` in the source
  only loses its own effect; the one unwrapped call propagates to the view's
  outermost handler, which answers HTTP 500.
* Timestamps are opaque strings (`Env.now`); `django.utils.dateparse.parse_datetime`
  is an environment function `parseDT` returning `none` on unparseable input.
-/

namespace WildWash

/-- `users.models.Location`: named service area with an active flag. -/
structure Location where
  locId : Nat
  name : String
  is_active : Bool
deriving DecidableEq

/-- A row of the custom `users.models.User` joined with its
`riders.models.RiderProfile.completed_jobs` fairness counter (`0` when the profile
is absent, the field default). -/
structure User where
  uid : Nat
  role : String
  staff_type : String
  service_location : Option Nat
  location : String
  phone : String
  is_active : Bool
  is_staff : Bool
  is_superuser : Bool
  completed_jobs : Nat
deriving DecidableEq

/-- Python string truthiness: the empty string is falsy. -/
def pyTruthy (s : String) : Bool := s != ""

/-- Truthiness of an optional string (`None` and `""` are both falsy). -/
def optTruthy : Option String → Bool
  | some s => pyTruthy s
  | none => false

/-- Python `str()` applied to a nullable value, as used by the
`actual_price` / `delivered_at` comparisons in `OrderUpdateView.patch`. -/
def pyStr : Option String → String
  | some s => s
  | none => "None"

/-- Python `str.lower()`, over the character list (ASCII-faithful). -/
def lowerStr (s : String) : String := String.mk (s.data.map Char.toLower)

def isSpaceChar (c : Char) : Bool := c == ' ' || c == '\t' || c == '\n' || c == '\r'

/-- Python `str.strip()`: drop leading and trailing whitespace. -/
def stripStr (s : String) : String :=
  String.mk (((s.data.dropWhile isSpaceChar).reverse.dropWhile isSpaceChar).reverse)

/-- Does the first list occur at the head of the second? -/
def startsAs : List Char → List Char → Bool
  | [], _ => true
  | _ :: _, [] => false
  | a :: as, b :: bs => a == b && startsAs as bs

/-- Does the first list occur contiguously anywhere inside the second? -/
def hasSub (needle : List Char) : List Char → Bool
  | [] => startsAs needle []
  | b :: bs => startsAs needle (b :: bs) || hasSub needle bs

/-- Case-insensitive containment: Django `hay__icontains=needle`, and Python
`needle.lower() in hay.lower()`. -/
def lowerContains (hay needle : String) : Bool :=
  hasSub (lowerStr needle).data (lowerStr hay).data

/-- `queryset.order_by(key).first()`: the first element of the list attaining the
minimal key (ascending sort is stable, so among key ties the underlying row order
of the list decides). -/
def firstMinBy {α : Type} (f : α → Nat) : List α → Option α
  | [] => none
  | a :: rest =>
    match firstMinBy f rest with
    | none => some a
    | some b => if f a ≤ f b then some a else some b

/-- `Location.objects.filter(is_active=True)` in query order. -/
def activeLocations (locs : List Location) : List Location :=
  locs.filter (fun l => l.is_active)

/-- `User.objects.filter(role='rider', service_location=loc, is_active=True)`. -/
def activeRidersAt (users : List User) (loc : Nat) : List User :=
  users.filter (fun u => u.role == "rider" && u.service_location == some loc && u.is_active)

/-- `User.objects.filter(role='rider', is_active=True)` (the system-wide pool). -/
def activeRiders (users : List User) : List User :=
  users.filter (fun u => u.role == "rider" && u.is_active)

/-- The location-scoped rider query of the assignment code:
`...filter(role='rider', service_location=loc, is_active=True)
    .order_by('rider_profile__completed_jobs').first()`. -/
def selectRiderAt (users : List User) (loc : Nat) : Option User :=
  firstMinBy (fun u => u.completed_jobs) (activeRidersAt users loc)

/-- The system-wide fallback rider query (`signals.py` lines 118-124 and the
`assign_pending_orders` command). -/
def selectRiderAny (users : List User) : Option User :=
  firstMinBy (fun u => u.completed_jobs) (activeRiders users)

theorem firstMinBy_eq_none {α : Type} (f : α → Nat) :
    ∀ l : List α, firstMinBy f l = none ↔ l = [] := by
  intro l
  cases l with
  | nil => simp [firstMinBy]
  | cons x xs =>
    simp only [firstMinBy]
    cases h : firstMinBy f xs with
    | none => simp
    | some b =>
      by_cases hle : f x ≤ f b <;> simp [hle]

theorem firstMinBy_spec {α : Type} (f : α → Nat) :
    ∀ (l : List α) (a : α), firstMinBy f l = some a → a ∈ l ∧ ∀ b ∈ l, f a ≤ f b := by
  intro l
  induction l with
  | nil => intro a h; simp [firstMinBy] at h
  | cons x xs ih =>
    intro a h
    simp only [firstMinBy] at h
    cases hx : firstMinBy f xs with
    | none =>
      rw [hx] at h
      simp at h
      have hxs : xs = [] := (firstMinBy_eq_none f xs).mp hx
      subst hxs
      subst h
      simp
    | some b =>
      rw [hx] at h
      obtain ⟨hbmem, hbmin⟩ := ih b hx
      by_cases hle : f x ≤ f b
      · simp [hle] at h
        subst h
        refine ⟨List.mem_cons_self _ _, ?_⟩
        intro c hc
        rcases List.mem_cons.mp hc with rfl | hc
        · exact le_refl _
        · exact le_trans hle (hbmin c hc)
      · simp [hle] at h
        subst h
        refine ⟨List.mem_cons_of_mem _ hbmem, ?_⟩
        intro c hc
        rcases List.mem_cons.mp hc with rfl | hc
        · exact le_of_not_le hle
        · exact hbmin c hc

/-- `orders.models.Order`: the fields read or written by the assignment and
status-workflow code.  Timestamps and decimals are opaque strings, foreign keys
are row ids. -/
structure Order where
  oid : Nat
  code : String
  user : Option Nat
  service_location : Option Nat
  status : String
  pickup_address : String
  dropoff_address : String
  order_type : String
  rider : Option Nat
  washer : Option Nat
  folder : Option Nat
  quantity : Option Int
  weight_kg : Option Int
  description : Option String
  actual_price : Option String
  delivered_at : Option String
  washed_at : Option String
  folded_at : Option String
  created_by : Option Nat
deriving DecidableEq

/-- Structured payload of an `orders.models.OrderEvent.data` JSON field, for the
three event kinds the workflow writes. -/
inductive EventData
  | statusChange (old new : String)
  | detailsUpdated (fields : List String)
  | assignedRider (rider_id : Nat)
deriving DecidableEq

/-- `orders.models.OrderEvent`: append-only audit record. -/
structure OrderEvent where
  event_type : String
  actor : Option Nat
  data : EventData
deriving DecidableEq

/-- An in-app `notifications.models.Notification` row (target user and
`notification_type`). -/
structure Notif where
  target : Nat
  ntype : String
deriving DecidableEq

/-- Database tables and external-call behaviour visible to one request.
The `...Raises` Booleans are oracles: `true` means that call site raises an
exception when executed. -/
structure Env where
  users : List User
  locs : List Location
  now : String
  parseDT : String → Option String
  signalNotifyRaises : Bool := false
  notifyFolderRaises : Bool := false
  smsFolderRaises : Bool := false
  notifyRiderRaises : Bool := false
  smsRiderRaises : Bool := false
  smsCustomerReadyRaises : Bool := false
  smsDeliveredRaises : Bool := false

/-- Look a user row up by optional id (`None` foreign key gives no row). -/
def findUser (users : List User) : Option Nat → Option User
  | some i => users.find? (fun u => u.uid == i)
  | none => none

/-- Step 1 of the location-inference chain: when the order has a user whose
free-text `location` is truthy, run
`Location.objects.filter(name__icontains=user_location, is_active=True).first()`
with `user_location` lowered and stripped. -/
def locFromUserText (locs : List Location) (ouser : Option User) : Option Location :=
  match ouser with
  | some u =>
    if pyTruthy u.location then
      (activeLocations locs).find? (fun l => lowerContains l.name (stripStr (lowerStr u.location)))
    else none
  | none => none

/-- Step 2: the first active location whose name occurs (case-insensitively)
inside the order's pickup address. -/
def locFromPickup (locs : List Location) (pickup : String) : Option Location :=
  (activeLocations locs).find? (fun l => lowerContains pickup l.name)

/-- The location-inference chain shared verbatim by
`OrderListCreateView.perform_create` (views.py 731-758),
`order_status_update` (signals.py 66-88) and the `assign_pending_orders` command:
first match the customer's free-text `location`, then look for an active
location name occurring inside the pickup address, then fall back to the first
active location. -/
def inferLocation (locs : List Location) (ouser : Option User) (pickup : String) :
    Option Location :=
  match locFromUserText locs ouser with
  | some l => some l
  | none =>
    match locFromPickup locs pickup with
    | some l => some l
    | none => (activeLocations locs).head?

/-- Location resolution starting from the order's own `service_location`
(`service_location = order.service_location` followed by the inference chain
only when it is `None`). -/
def resolveLocId (locs : List Location) (orderLoc : Option Nat) (ouser : Option User)
    (pickup : String) : Option Nat :=
  match orderLoc with
  | some i => some i
  | none => (inferLocation locs ouser pickup).map (fun l => l.locId)

/-- Input accepted by `OrderCreateSerializer` (the fields relevant to assignment
and workflow). -/
structure CreateInput where
  order_type : String := "online"
  service_location : Option Nat := none
  pickup_address : String := ""
  dropoff_address : String := ""

/-- The `created_by_user` of `OrderCreateSerializer.create`: the requesting user
when authenticated and the order is manual. -/
def createdByUser (reqUser : Option User) (inp : CreateInput) : Option User :=
  match reqUser with
  | some u => if inp.order_type == "manual" then some u else none
  | none => none

/-- The effective user the serializer attaches to the order: the requesting user
for authenticated online orders, the shared guest account otherwise (manual and
anonymous orders). -/
def effectiveUser (reqUser : Option User) (guest : User) (inp : CreateInput) : User :=
  match reqUser with
  | some u => if inp.order_type == "manual" then guest else u
  | none => guest

/-- The serializer's `service_location` inference (serializers.py 137-163): the
provided location, else the staff creator's location for manual orders, else the
user's `service_location`, else an `icontains` match of the user's free-text
location over active locations, else an active location name found inside the
pickup address — with no first-active fallback on this path. -/
def serializerLoc (env : Env) (reqUser : Option User) (guest : User)
    (inp : CreateInput) : Option Nat :=
  match inp.service_location with
  | some l => some l
  | none =>
    if (inp.order_type == "manual")
        && ((createdByUser reqUser inp).bind (fun u => u.service_location)).isSome then
      (createdByUser reqUser inp).bind (fun u => u.service_location)
    else if (effectiveUser reqUser guest inp).service_location.isSome then
      (effectiveUser reqUser guest inp).service_location
    else if pyTruthy (effectiveUser reqUser guest inp).location then
      ((activeLocations env.locs).find? (fun l =>
        lowerContains l.name
          (stripStr (lowerStr (effectiveUser reqUser guest inp).location)))).map
        (fun l => l.locId)
    else
      (locFromPickup env.locs inp.pickup_address).map (fun l => l.locId)

/-- `OrderCreateSerializer.create` (serializers.py 92-219): attach the effective
user, record `created_by` for manual orders, infer `service_location` via
`serializerLoc`, and force manual orders to status `pending_assignment` (online
orders keep the model default `requested`).  The row id and the final `WW-` code
are abstracted as given. -/
def serializerCreate (env : Env) (reqUser : Option User) (guest : User)
    (inp : CreateInput) (oid : Nat) : Order :=
  { oid := oid
    code := "WW-" ++ toString oid
    user := some (effectiveUser reqUser guest inp).uid
    service_location := serializerLoc env reqUser guest inp
    status := if inp.order_type == "manual" then "pending_assignment" else "requested"
    pickup_address := inp.pickup_address
    dropoff_address := inp.dropoff_address
    order_type := inp.order_type
    rider := none
    washer := none
    folder := none
    quantity := none
    weight_kg := none
    description := none
    actual_price := none
    delivered_at := none
    washed_at := none
    folded_at := none
    created_by := (createdByUser reqUser inp).map (fun u => u.uid) }

/-- `orders.signals.order_status_update` on the creation save (signals.py 15-146):
notify the customer, and for manual orders with no rider resolve a location and
auto-assign the least-busy active rider there — or, if that location has none,
the least-busy active rider system-wide — setting the `rider`, the
`service_location` and keeping status `pending_assignment`; the re-entrant save
uses `update_fields={rider,status,service_location}`, which the recursion guard
swallows.  The whole auto-assign body is wrapped in `try/except`, so it never
raises out of the signal. -/
def signalAssign (o : Order) (r : User) (locId : Nat) : Order :=
  { o with rider := some r.uid, service_location := some locId,
           status := "pending_assignment" }

def signalOnCreate (env : Env) (ouser : User) (o : Order) : Order × List Notif :=
  let customerNotif : List Notif :=
    if env.signalNotifyRaises then [] else [⟨ouser.uid, "new_order"⟩]
  if o.rider == none && o.order_type == "manual" then
    match resolveLocId env.locs o.service_location (some ouser) o.pickup_address with
    | some locId =>
      match selectRiderAt env.users locId with
      | some r => (signalAssign o r locId, customerNotif ++ [⟨r.uid, "new_order"⟩])
      | none =>
        match selectRiderAny env.users with
        | some r => (signalAssign o r locId, customerNotif ++ [⟨r.uid, "new_order"⟩])
        | none => (o, customerNotif)
    | none => (o, customerNotif)
  else (o, customerNotif)

/-- `OrderListCreateView.perform_create` auto-assignment (views.py 717-791): for an
order still lacking a rider, resolve a location with the inference chain and
assign the least-busy active rider **at that location only** (there is no
system-wide fallback on this path); on success set `rider` and
`service_location` and advance `pending_assignment` to `requested`.  The save
uses `update_fields=[rider, service_location, status]`, swallowed by the signal
guard. -/
def performAssign (o : Order) (r : User) (locId : Nat) : Order :=
  { o with rider := some r.uid, service_location := some locId,
           status := if o.status == "pending_assignment" then "requested" else o.status }

def performCreateAssign (env : Env) (ouser : User) (o : Order) : Order :=
  if o.rider != none then o
  else
    match resolveLocId env.locs o.service_location (some ouser) o.pickup_address with
    | some locId =>
      match selectRiderAt env.users locId with
      | some r => performAssign o r locId
      | none => o
    | none => o

/-- Order creation through `OrderListCreateView` (POST): serializer `create`,
then the `post_save` signal on the creation save, then `perform_create`'s
auto-assignment, then the three notification fan-outs (customer, all active
superusers, assigned rider), each independently guarded by `try/except`. -/
def createOrder (env : Env) (reqUser : Option User) (guest : User)
    (inp : CreateInput) (oid : Nat) : Order × List Notif :=
  let ouser := effectiveUser reqUser guest inp
  let o0 := serializerCreate env reqUser guest inp oid
  let o1 := (signalOnCreate env ouser o0).1
  let n1 := (signalOnCreate env ouser o0).2
  let o2 := performCreateAssign env ouser o1
  let n2 : List Notif :=
    [⟨ouser.uid, "new_order"⟩]
      ++ ((env.users.filter (fun u => u.is_superuser && u.is_active)).map
            (fun u => ⟨u.uid, "new_order"⟩))
      ++ (match o2.rider with
          | some r => [⟨r, "order_assigned"⟩]
          | none => [])
  (o2, n1 ++ n2)

/-- `RiderOrderListView.post` (views.py 244-266): accept an order.  The lookup is
`Order.objects.get(id=..., rider__isnull=True, status__iexact='requested')`; the
returned Boolean is `true` when the order matched and was mutated, `false` for
the 404 / reject cases (order untouched). -/
def riderAccept (actor : User) (o : Order) (action : String) : Order × Bool :=
  if o.rider == none && lowerStr o.status == "requested" then
    if action == "accept" then
      ({ o with rider := some actor.uid, status := "in_progress" }, true)
    else (o, false)
  else (o, false)

/-- One iteration of the `assign_pending_orders` management command: the queryset
is `Order.objects.filter(rider__isnull=True)`, so an order with a rider is never
touched; otherwise resolve a location, prefer the least-busy active rider there,
fall back to the least-busy active rider anywhere, and on success set `rider`,
`service_location` and status `in_progress`. -/
def assignPendingStep (env : Env) (ouser : Option User) (o : Order) : Order :=
  if o.rider != none then o
  else
    match resolveLocId env.locs o.service_location ouser o.pickup_address with
    | some locId =>
      let chosen : Option User :=
        match selectRiderAt env.users locId with
        | some r => some r
        | none => selectRiderAny env.users
      match chosen with
      | some r =>
        { o with rider := some r.uid, service_location := some locId,
                 status := "in_progress" }
      | none => o
    | none => o

/-- Body of a PATCH request to `OrderUpdateView` (views.py 275-646): the optional
new status and the optional detail fields. -/
structure PatchReq where
  status : Option String := none
  quantity : Option Int := none
  weight_kg : Option Int := none
  description : Option String := none
  actual_price : Option String := none
  delivered_at : Option String := none

/-- The three response shapes of `OrderUpdateView.patch` relevant here: the
serialized order (200), the permission rejections (403), and the outermost
catch-all (500). -/
inductive Resp
  | ok
  | forbidden
  | serverError
deriving DecidableEq

/-- Observable outcome of one `OrderUpdateView.patch` request: the persisted
order row, the `OrderEvent` rows appended, the `Notification` rows created, the
SMS sends that completed, and the HTTP response. -/
structure PatchOut where
  order : Order
  events : List OrderEvent
  notifs : List Notif
  smsSent : List String
  resp : Resp

/-- The in-view location check (views.py 284-287): a staff, non-superuser actor
is rejected when they have no `service_location` or the order's
`service_location` differs from theirs. -/
def scopeRejected (actor : User) (o : Order) : Bool :=
  actor.is_staff && !actor.is_superuser &&
    (actor.service_location == none || o.service_location != actor.service_location)

/-- `users.permissions.LocationBasedPermission.has_permission`: superusers pass,
staff without a `service_location` are rejected, everyone else passes. -/
def hasPermission (u : User) : Bool :=
  if u.is_superuser then true
  else if u.is_staff && u.service_location == none then false
  else true

/-- `status_changed_to_ready` (views.py 292). -/
def statusToReady (o : Order) (req : PatchReq) : Bool :=
  optTruthy req.status && (lowerStr (req.status.getD "") == "ready")
    && (lowerStr o.status != "ready")

/-- `status_changed_to_washed` (views.py 293). -/
def statusToWashed (o : Order) (req : PatchReq) : Bool :=
  optTruthy req.status && (lowerStr (req.status.getD "") == "washed")
    && (lowerStr o.status != "washed")

/-- `status_changed_to_delivered` (views.py 618). -/
def statusToDelivered (o : Order) (req : PatchReq) : Bool :=
  optTruthy req.status && (lowerStr (req.status.getD "") == "delivered")
    && (lowerStr o.status != "delivered")

/-- The field writes of views.py 310-337: status only when truthy, each detail
field only when supplied (`is not None`). -/
def applyReqFields (o : Order) (req : PatchReq) : Order :=
  { o with
    status := match req.status with
      | some s => if pyTruthy s then s else o.status
      | none => o.status
    quantity := match req.quantity with
      | some q => some q
      | none => o.quantity
    weight_kg := match req.weight_kg with
      | some w => some w
      | none => o.weight_kg
    description := match req.description with
      | some d => some d
      | none => o.description
    actual_price := match req.actual_price with
      | some p => some p
      | none => o.actual_price }

/-- The timestamp that views.py 341-352 persists: the request's `delivered_at`
when supplied and parseable, independent of the status logic. -/
def deliveredParsed (env : Env) (req : PatchReq) : Option String :=
  match req.delivered_at with
  | some d => env.parseDT d
  | none => none

/-- The follow-up `delivered_at` write (views.py 341-352): parse errors are
ignored and leave the field untouched. -/
def applyDeliveredAt (env : Env) (o : Order) (req : PatchReq) : Order :=
  match deliveredParsed env req with
  | some ts => { o with delivered_at := some ts }
  | none => o

/-- The `status_changed` audit event (views.py 359-365), written when a truthy
status was supplied and differs (string-exactly) from the snapshot. -/
def mkStatusEvent (actor : User) (o : Order) (req : PatchReq) : List OrderEvent :=
  match req.status with
  | some s =>
    if pyTruthy s && o.status != s then
      [⟨"status_changed", some actor.uid, EventData.statusChange o.status s⟩]
    else []
  | none => []

/-- The changed-detail diff of views.py 368-388, taken against the pre-call
snapshot; `actual_price` and `delivered_at` are compared as `str(old) != str(new)`
with `str(None) = "None"`. -/
def changedDetailFields (o : Order) (req : PatchReq) : List String :=
  (match req.quantity with
   | some q => if some q != o.quantity then ["quantity"] else []
   | none => []) ++
  (match req.weight_kg with
   | some w => if some w != o.weight_kg then ["weight_kg"] else []
   | none => []) ++
  (match req.description with
   | some d => if some d != o.description then ["description"] else []
   | none => []) ++
  (match req.actual_price with
   | some p => if pyStr o.actual_price != p then ["actual_price"] else []
   | none => []) ++
  (match req.delivered_at with
   | some d => if pyStr o.delivered_at != d then ["delivered_at"] else []
   | none => [])

/-- The single bundled `details_updated` event (views.py 390-396), written only
when at least one detail changed. -/
def mkDetailEvent (actor : User) (o : Order) (req : PatchReq) : List OrderEvent :=
  if changedDetailFields o req != [] then
    [⟨"details_updated", some actor.uid, EventData.detailsUpdated (changedDetailFields o req)⟩]
  else []

/-- `order_status_update` on a non-creation save whose `update_fields` pass the
recursion guards (every save `OrderUpdateView.patch` performs does): the only
effect is a best-effort customer notification, itself in `try/except`. -/
def signalUpdateNotifs (env : Env) (o : Order) : List Notif :=
  match o.user with
  | some u => if env.signalNotifyRaises then [] else [⟨u, "order_update"⟩]
  | none => []

/-- `User.objects.filter(service_location=order.service_location,
staff_type='folder', is_active=True)` (views.py 416-420). -/
def folderStaff (env : Env) (o : Order) : List User :=
  env.users.filter (fun u =>
    u.service_location == o.service_location && u.staff_type == "folder" && u.is_active)

/-- The rider write of the ready block (views.py 502-507 and 526-531): set the
rider and advance `pending_assignment` to `requested`. -/
def assignRiderTo (o : Order) (r : User) : Order :=
  { o with rider := some r.uid,
           status := if o.status == "pending_assignment" then "requested" else o.status }

/-- The delivery-address gate for manual orders (views.py 484-488). -/
def hasDeliveryAddress (o : Order) : Bool :=
  pyTruthy o.dropoff_address && lowerStr o.dropoff_address != "to be assigned"
    && stripStr o.dropoff_address != ""

/-- The ready-transition rider assignment (views.py 476-539).  Returns the order
after the block, the `assigned_rider` local (which the notification and the
`assigned_rider` event key on), and whether a **new** assignment was written.
Manual orders are gated on a real delivery address and only query the order's
location; non-manual orders without a rider query the order's location; in every
other case `assigned_rider` is simply the order's existing rider row. -/
def readyAssign (env : Env) (o : Order) : Order × Option User × Bool :=
  if o.order_type == "manual" then
    if hasDeliveryAddress o && o.rider == none then
      match o.service_location with
      | some locId =>
        match selectRiderAt env.users locId with
        | some r => (assignRiderTo o r, some r, true)
        | none => (o, none, false)
      | none => (o, none, false)
    else (o, none, false)
  else if o.rider == none && o.service_location.isSome then
    match o.service_location with
    | some locId =>
      match selectRiderAt env.users locId with
      | some r => (assignRiderTo o r, some r, true)
      | none => (o, none, false)
    | none => (o, none, false)
  else (o, findUser env.users o.rider, false)

/-- The customer "order ready" SMS (views.py 595-615): attempted only when the
order has a user with a truthy phone; any raise is caught in place. -/
def customerReadySms (env : Env) (o : Order) : List String :=
  match findUser env.users o.user with
  | some u =>
    if pyTruthy u.phone && !env.smsCustomerReadyRaises then ["customer_ready_sms"] else []
  | none => []

/-- The delivery-confirmation SMS (views.py 619-637), best-effort, caught in
place. -/
def deliveredSmsSends (env : Env) (o : Order) (toDelivered : Bool) : List String :=
  if toDelivered then
    match findUser env.users o.user with
    | some u =>
      if pyTruthy u.phone && !env.smsDeliveredRaises then ["delivered_sms"] else []
    | none => []
  else []

/-- The order row after the primary mutation (views.py 310-352) and the two
conditional stage stamps: the washer stamp (views.py 400-407, when transitioning
to `washed` and the actor is staff or a washer) and the folder stamp (views.py
464-470, when transitioning to `ready` and the actor is a folder). -/
def orderAfterStamps (env : Env) (actor : User) (o : Order) (req : PatchReq) : Order :=
  let o2 := applyDeliveredAt env (applyReqFields o req) req
  let o3 := if statusToWashed o req && (actor.is_staff || actor.staff_type == "washer") then
      { o2 with washer := some actor.uid, washed_at := some env.now }
    else o2
  if statusToReady o req && actor.staff_type == "folder" then
    { o3 with folder := some actor.uid, folded_at := some env.now }
  else o3

/-- The order row as persisted at the end of the request body: the stamps, then
the ready-transition assignment when it applies. -/
def patchOrderResult (env : Env) (actor : User) (o : Order) (req : PatchReq) : Order :=
  if statusToReady o req then (readyAssign env (orderAfterStamps env actor o req)).1
  else orderAfterStamps env actor o req

/-- The `assigned_rider` local of the ready block together with the
was-newly-assigned flag (`none, false` when no ready transition happens). -/
def patchAssigned (env : Env) (actor : User) (o : Order) (req : PatchReq) :
    Option User × Bool :=
  if statusToReady o req then (readyAssign env (orderAfterStamps env actor o req)).2
  else (none, false)

/-- The persisted order at the end of the request: unchanged on the scope
rejection, else the mutated row.  The raise of the rider notification happens
after every order write of the request, so the row is the same whether or not
the response degrades to a 500. -/
def patchFinalOrder (env : Env) (actor : User) (o : Order) (req : PatchReq) : Order :=
  if scopeRejected actor o then o else patchOrderResult env actor o req

/-- The `OrderEvent` rows appended by the request: the `status_changed` and
`details_updated` events of views.py 358-396, then the `assigned_rider` event of
views.py 585-592, which is written only when the ready block computed a non-null
`assigned_rider` and the (earlier) rider notification did not raise. -/
def patchEvents (env : Env) (actor : User) (o : Order) (req : PatchReq) :
    List OrderEvent :=
  if scopeRejected actor o then []
  else
    mkStatusEvent actor o req ++ mkDetailEvent actor o req ++
    (if statusToReady o req then
      match (patchAssigned env actor o req).1 with
      | some r =>
        if env.notifyRiderRaises then []
        else [⟨"assigned_rider", some actor.uid, EventData.assignedRider r.uid⟩]
      | none => []
    else [])

/-- The `Notification` rows created by the request: one customer notification per
`save()` through the `post_save` signal (none of the saves touch `user`, so each
targets the same customer), the folder-staff fan-out of the washed block
(views.py 416-431, caught), and the rider notification of the ready block
(views.py 542-549, uncaught). -/
def patchNotifs (env : Env) (actor : User) (o : Order) (req : PatchReq) : List Notif :=
  if scopeRejected actor o then []
  else
    signalUpdateNotifs env o
    ++ (match deliveredParsed env req with
        | some _ => signalUpdateNotifs env o
        | none => [])
    ++ (if statusToWashed o req && (actor.is_staff || actor.staff_type == "washer") then
          signalUpdateNotifs env o
        else [])
    ++ (if statusToWashed o req && !env.notifyFolderRaises then
          (folderStaff env o).map (fun u => (⟨u.uid, "order_update"⟩ : Notif))
        else [])
    ++ (if statusToReady o req && actor.staff_type == "folder" then
          signalUpdateNotifs env o
        else [])
    ++ (if (patchAssigned env actor o req).2 then signalUpdateNotifs env o else [])
    ++ (if statusToReady o req then
          match (patchAssigned env actor o req).1 with
          | some r => if env.notifyRiderRaises then [] else [⟨r.uid, "order_update"⟩]
          | none => []
        else [])

/-- The SMS sends that completed: the folder SMS loop of the washed block, and —
unless the rider notification raised first — the rider "ready" SMS, the customer
"ready" SMS (views.py 595-615) and the delivery-confirmation SMS. -/
def patchSms (env : Env) (actor : User) (o : Order) (req : PatchReq) : List String :=
  if scopeRejected actor o then []
  else
    (if statusToWashed o req && !env.notifyFolderRaises && !(folderStaff env o).isEmpty
        && !env.smsFolderRaises then
      ((folderStaff env o).filter (fun u => pyTruthy u.phone)).map (fun _ => "folder_sms")
    else [])
    ++ (if statusToReady o req then
          match (patchAssigned env actor o req).1 with
          | some r =>
            if env.notifyRiderRaises then []
            else
              (if pyTruthy r.phone && !env.smsRiderRaises then ["rider_ready_sms"] else [])
              ++ customerReadySms env (patchFinalOrder env actor o req)
              ++ deliveredSmsSends env (patchFinalOrder env actor o req)
                   (statusToDelivered o req)
          | none =>
            customerReadySms env (patchFinalOrder env actor o req)
            ++ deliveredSmsSends env (patchFinalOrder env actor o req)
                 (statusToDelivered o req)
        else
          deliveredSmsSends env (patchFinalOrder env actor o req) (statusToDelivered o req))

/-- The HTTP response: 403 on the scope rejection, 500 when the ready block's
rider notification raised (views.py 544-549 reaching the catch-all at 644-646),
200 with the updated order otherwise. -/
def patchResp (env : Env) (actor : User) (o : Order) (req : PatchReq) : Resp :=
  if scopeRejected actor o then Resp.forbidden
  else if statusToReady o req then
    match (patchAssigned env actor o req).1 with
    | some _ => if env.notifyRiderRaises then Resp.serverError else Resp.ok
    | none => Resp.ok
  else Resp.ok

/-- `OrderUpdateView.patch` after the order lookup (views.py 283-646): the scope
check, the primary mutation and audit events, the stamps, the ready-transition
assignment and the side effects, bundled from the four projections above (which
share the branch structure of the view body). -/
def patchBody (env : Env) (actor : User) (o : Order) (req : PatchReq) : PatchOut :=
  ⟨patchFinalOrder env actor o req, patchEvents env actor o req,
   patchNotifs env actor o req, patchSms env actor o req, patchResp env actor o req⟩

/-- A full `update_order_status` request on an existing order: the
`LocationBasedPermission` gate, then the view body. -/
def updateOrderStatus (env : Env) (actor : User) (o : Order) (req : PatchReq) : PatchOut :=
  if !(hasPermission actor) then ⟨o, [], [], [], Resp.forbidden⟩
  else patchBody env actor o req

/-! ### Structural lemmas about the embedded operations -/

theorem readyAssign_cases (env : Env) (o : Order) :
    (∃ locId r, o.service_location = some locId ∧ o.rider = none ∧
        selectRiderAt env.users locId = some r ∧
        readyAssign env o = (assignRiderTo o r, some r, true))
    ∨ ((readyAssign env o).1 = o ∧ (readyAssign env o).2.2 = false) := by
  unfold readyAssign
  repeat' split
  all_goals first
    | (right; exact ⟨rfl, rfl⟩)
    | (left; refine ⟨_, _, by assumption, ?_, by assumption, rfl⟩; simp_all)

theorem assignRiderTo_status (o : Order) (r : User) (h : o.status ≠ "pending_assignment") :
    (assignRiderTo o r).status = o.status := by
  unfold assignRiderTo
  simp [h]

theorem readyAssign_status (env : Env) (o : Order) (h : o.status ≠ "pending_assignment") :
    (readyAssign env o).1.status = o.status := by
  rcases readyAssign_cases env o with ⟨locId, r, _, _, _, heq⟩ | ⟨heq, _⟩
  · rw [heq]; exact assignRiderTo_status o r h
  · rw [heq]

theorem readyAssign_delivered (env : Env) (o : Order) :
    (readyAssign env o).1.delivered_at = o.delivered_at := by
  rcases readyAssign_cases env o with ⟨locId, r, _, _, _, heq⟩ | ⟨heq, _⟩
  · rw [heq]; rfl
  · rw [heq]

theorem readyAssign_rider_some (env : Env) (o : Order) (rid : Nat) (h : o.rider = some rid) :
    (readyAssign env o).1 = o ∧ (readyAssign env o).2.2 = false := by
  rcases readyAssign_cases env o with ⟨locId, r, _, hnone, _, _⟩ | hok
  · rw [h] at hnone; cases hnone
  · exact hok

theorem mkStatusEvent_filter_status (actor : User) (o : Order) (req : PatchReq) :
    (mkStatusEvent actor o req).filter (fun e => e.event_type == "status_changed")
      = mkStatusEvent actor o req := by
  unfold mkStatusEvent
  split <;> first | rfl | (split <;> rfl)

theorem mkStatusEvent_filter_assigned (actor : User) (o : Order) (req : PatchReq) :
    (mkStatusEvent actor o req).filter (fun e => e.event_type == "assigned_rider") = [] := by
  unfold mkStatusEvent
  split <;> first | rfl | (split <;> rfl)

theorem mkDetailEvent_filter_status (actor : User) (o : Order) (req : PatchReq) :
    (mkDetailEvent actor o req).filter (fun e => e.event_type == "status_changed") = [] := by
  unfold mkDetailEvent
  split <;> rfl

theorem mkDetailEvent_filter_assigned (actor : User) (o : Order) (req : PatchReq) :
    (mkDetailEvent actor o req).filter (fun e => e.event_type == "assigned_rider") = [] := by
  unfold mkDetailEvent
  split <;> rfl

theorem patchEvents_filter_status (env : Env) (actor : User) (o : Order) (req : PatchReq)
    (h : scopeRejected actor o = false) :
    (patchEvents env actor o req).filter (fun e => e.event_type == "status_changed")
      = mkStatusEvent actor o req := by
  have hc : ((if statusToReady o req then
      match (patchAssigned env actor o req).1 with
      | some r =>
        if env.notifyRiderRaises then []
        else [⟨"assigned_rider", some actor.uid, EventData.assignedRider r.uid⟩]
      | none => []
    else []) : List OrderEvent).filter (fun e => e.event_type == "status_changed") = [] := by
    split
    · split
      · split <;> rfl
      · rfl
    · rfl
  unfold patchEvents
  rw [if_neg (by simp [h]), List.filter_append, List.filter_append,
      mkDetailEvent_filter_status, mkStatusEvent_filter_status, hc]
  simp

theorem updateOrder_order (env : Env) (actor : User) (o : Order) (req : PatchReq)
    (hp : hasPermission actor = true) :
    (updateOrderStatus env actor o req).order = patchFinalOrder env actor o req := by
  unfold updateOrderStatus
  rw [if_neg (by simp [hp])]
  rfl

theorem updateOrder_events (env : Env) (actor : User) (o : Order) (req : PatchReq)
    (hp : hasPermission actor = true) :
    (updateOrderStatus env actor o req).events = patchEvents env actor o req := by
  unfold updateOrderStatus
  rw [if_neg (by simp [hp])]
  rfl

theorem updateOrder_resp (env : Env) (actor : User) (o : Order) (req : PatchReq)
    (hp : hasPermission actor = true) :
    (updateOrderStatus env actor o req).resp = patchResp env actor o req := by
  unfold updateOrderStatus
  rw [if_neg (by simp [hp])]
  rfl

theorem applyReqFields_status (o : Order) (req : PatchReq) (s : String)
    (hs : req.status = some s) (hne : s ≠ "") :
    (applyReqFields o req).status = s := by
  unfold applyReqFields
  simp [hs, pyTruthy, hne]

theorem applyReqFields_rider (o : Order) (req : PatchReq) :
    (applyReqFields o req).rider = o.rider := rfl

theorem applyReqFields_delivered (o : Order) (req : PatchReq) :
    (applyReqFields o req).delivered_at = o.delivered_at := rfl

theorem applyDeliveredAt_status (env : Env) (o : Order) (req : PatchReq) :
    (applyDeliveredAt env o req).status = o.status := by
  unfold applyDeliveredAt
  split <;> rfl

theorem applyDeliveredAt_rider (env : Env) (o : Order) (req : PatchReq) :
    (applyDeliveredAt env o req).rider = o.rider := by
  unfold applyDeliveredAt
  split <;> rfl

theorem applyDeliveredAt_delivered (env : Env) (o : Order) (req : PatchReq) :
    (applyDeliveredAt env o req).delivered_at
      = (match deliveredParsed env req with
         | some ts => some ts
         | none => o.delivered_at) := by
  unfold applyDeliveredAt
  cases deliveredParsed env req <;> rfl

theorem orderAfterStamps_status (env : Env) (actor : User) (o : Order) (req : PatchReq) :
    (orderAfterStamps env actor o req).status = (applyReqFields o req).status := by
  unfold orderAfterStamps
  split <;> split <;> simp [applyDeliveredAt_status]

theorem orderAfterStamps_rider (env : Env) (actor : User) (o : Order) (req : PatchReq) :
    (orderAfterStamps env actor o req).rider = o.rider := by
  unfold orderAfterStamps
  split <;> split <;> simp [applyDeliveredAt_rider, applyReqFields_rider]

theorem orderAfterStamps_delivered (env : Env) (actor : User) (o : Order) (req : PatchReq) :
    (orderAfterStamps env actor o req).delivered_at
      = (applyDeliveredAt env (applyReqFields o req) req).delivered_at := by
  unfold orderAfterStamps
  split <;> split <;> rfl

theorem statusToReady_self (o : Order) (req : PatchReq) (hs : req.status = some o.status) :
    statusToReady o req = false := by
  unfold statusToReady
  rw [hs]
  simp only [Option.getD_some, bne]
  cases h : (lowerStr o.status == "ready") <;> simp [h]

theorem statusToReady_status_ne (o : Order) (req : PatchReq) (h : statusToReady o req = true) :
    req.status.getD "" ≠ "pending_assignment" := by
  intro hc
  unfold statusToReady at h
  rw [hc] at h
  simp only [Bool.and_eq_true] at h
  exact absurd h.1.2 (by decide)

theorem patchOrderResult_status (env : Env) (actor : User) (o : Order) (req : PatchReq)
    (s : String) (hs : req.status = some s) (hne : s ≠ "") :
    (patchOrderResult env actor o req).status = s := by
  unfold patchOrderResult
  by_cases hR : statusToReady o req
  · rw [if_pos hR]
    have h1 : (orderAfterStamps env actor o req).status = s := by
      rw [orderAfterStamps_status, applyReqFields_status o req s hs hne]
    have h2 : (orderAfterStamps env actor o req).status ≠ "pending_assignment" := by
      rw [h1]
      have h3 := statusToReady_status_ne o req hR
      rw [hs] at h3
      simpa using h3
    rw [readyAssign_status env _ h2, h1]
  · rw [if_neg hR, orderAfterStamps_status, applyReqFields_status o req s hs hne]

theorem patchOrderResult_rider_some (env : Env) (actor : User) (o : Order) (req : PatchReq)
    (rid : Nat) (h : o.rider = some rid) :
    (patchOrderResult env actor o req).rider = some rid := by
  unfold patchOrderResult
  have h4 : (orderAfterStamps env actor o req).rider = some rid := by
    rw [orderAfterStamps_rider]; exact h
  by_cases hR : statusToReady o req
  · rw [if_pos hR, (readyAssign_rider_some env _ rid h4).1]
    exact h4
  · rw [if_neg hR]
    exact h4

theorem patchOrderResult_delivered (env : Env) (actor : User) (o : Order) (req : PatchReq) :
    (patchOrderResult env actor o req).delivered_at
      = (match deliveredParsed env req with
         | some ts => some ts
         | none => o.delivered_at) := by
  have hbase : (orderAfterStamps env actor o req).delivered_at
      = (match deliveredParsed env req with
         | some ts => some ts
         | none => o.delivered_at) := by
    rw [orderAfterStamps_delivered, applyDeliveredAt_delivered, applyReqFields_delivered]
  unfold patchOrderResult
  by_cases hR : statusToReady o req
  · rw [if_pos hR, readyAssign_delivered]
    exact hbase
  · rw [if_neg hR]
    exact hbase

theorem hasPermission_false {u : User} (h : hasPermission u = false) :
    u.is_staff = true ∧ u.is_superuser = false := by
  unfold hasPermission at h
  by_cases hsu : u.is_superuser = true
  · rw [if_pos hsu] at h; simp at h
  · have hsu2 : u.is_superuser = false := by simpa using hsu
    rw [if_neg hsu] at h
    by_cases hst : (u.is_staff && u.service_location == none) = true
    · simp only [Bool.and_eq_true] at hst
      exact ⟨hst.1, hsu2⟩
    · rw [if_neg hst] at h; simp at h

theorem scopeRejected_true {actor : User} {o : Order} (h : scopeRejected actor o = true) :
    actor.is_staff = true ∧ actor.is_superuser = false := by
  unfold scopeRejected at h
  simp only [Bool.and_eq_true] at h
  refine ⟨h.1.1, ?_⟩
  simpa using h.1.2

theorem hasPermission_not_staff {u : User} (h : u.is_staff = false) :
    hasPermission u = true := by
  unfold hasPermission
  by_cases hsu : u.is_superuser = true
  · rw [if_pos hsu]
  · rw [if_neg hsu, if_neg (by simp [h])]

theorem scopeRejected_not_staff {actor : User} (o : Order) (h : actor.is_staff = false) :
    scopeRejected actor o = false := by
  unfold scopeRejected
  simp [h]

theorem patchResp_forbidden {env : Env} {actor : User} {o : Order} {req : PatchReq}
    (h : patchResp env actor o req = Resp.forbidden) :
    scopeRejected actor o = true := by
  by_cases hsc : scopeRejected actor o = true
  · exact hsc
  · exfalso
    have hsc2 : scopeRejected actor o = false := by simpa using hsc
    unfold patchResp at h
    rw [if_neg (by simp [hsc2])] at h
    split at h
    · split at h
      · split at h <;> simp at h
      · simp at h
    · simp at h

theorem patchResp_serverError {env : Env} {actor : User} {o : Order} {req : PatchReq}
    (h : patchResp env actor o req = Resp.serverError) :
    env.notifyRiderRaises = true := by
  unfold patchResp at h
  split at h
  · simp at h
  · split at h
    · split at h
      · split at h
        · assumption
        · simp at h
      · simp at h
    · simp at h

theorem mem_activeRidersAt {users : List User} {locId : Nat} {r : User}
    (h : r ∈ activeRidersAt users locId) :
    r ∈ users ∧ r.role = "rider" ∧ r.service_location = some locId ∧ r.is_active = true := by
  obtain ⟨hmem, hp⟩ := List.mem_filter.mp h
  simp only [Bool.and_eq_true, beq_iff_eq] at hp
  exact ⟨hmem, hp.1.1, hp.1.2, hp.2⟩

theorem mem_activeRiders {users : List User} {r : User} (h : r ∈ activeRiders users) :
    r ∈ users ∧ r.role = "rider" ∧ r.is_active = true := by
  obtain ⟨hmem, hp⟩ := List.mem_filter.mp h
  simp only [Bool.and_eq_true, beq_iff_eq] at hp
  exact ⟨hmem, hp.1, hp.2⟩

/-- The property claimed of every successfully selected rider. -/
def fairPick (users : List User) (locId : Nat) (r : User) : Prop :=
  r ∈ users ∧ r.role = "rider" ∧ r.is_active = true ∧
  ((r.service_location = some locId ∧
      ∀ u ∈ activeRidersAt users locId, r.completed_jobs ≤ u.completed_jobs)
   ∨ (activeRidersAt users locId = [] ∧
      ∀ u ∈ activeRiders users, r.completed_jobs ≤ u.completed_jobs))

theorem selectRiderAt_fair {users : List User} {locId : Nat} {r : User}
    (h : selectRiderAt users locId = some r) : fairPick users locId r := by
  obtain ⟨hmem, hmin⟩ := firstMinBy_spec _ _ _ h
  obtain ⟨hu, hrole, hloc, hact⟩ := mem_activeRidersAt hmem
  exact ⟨hu, hrole, hact, Or.inl ⟨hloc, hmin⟩⟩

theorem selectRiderAny_fair {users : List User} {locId : Nat} {r : User}
    (hempty : activeRidersAt users locId = []) (h : selectRiderAny users = some r) :
    fairPick users locId r := by
  obtain ⟨hmem, hmin⟩ := firstMinBy_spec _ _ _ h
  obtain ⟨hu, hrole, hact⟩ := mem_activeRiders hmem
  exact ⟨hu, hrole, hact, Or.inr ⟨hempty, hmin⟩⟩

theorem selectRiderAt_none {users : List User} {locId : Nat}
    (h : selectRiderAt users locId = none) : activeRidersAt users locId = [] :=
  (firstMinBy_eq_none _ _).mp h

theorem locFromUserText_nil {locs : List Location} (ouser : Option User)
    (h : activeLocations locs = []) : locFromUserText locs ouser = none := by
  unfold locFromUserText
  rw [h]
  split <;> first | rfl | (split <;> rfl)

theorem inferLocation_none_iff (locs : List Location) (ouser : Option User) (pickup : String) :
    inferLocation locs ouser pickup = none ↔ activeLocations locs = [] := by
  constructor
  · intro h
    unfold inferLocation at h
    cases hu : locFromUserText locs ouser with
    | some l => rw [hu] at h; simp at h
    | none =>
      rw [hu] at h
      cases hp : locFromPickup locs pickup with
      | some l => rw [hp] at h; simp at h
      | none =>
        rw [hp] at h
        cases hl : activeLocations locs with
        | nil => rfl
        | cons a as => rw [hl] at h; simp at h
  · intro h
    unfold inferLocation
    rw [locFromUserText_nil ouser h]
    unfold locFromPickup
    rw [h]
    rfl

/-- The resolution chain exactly as the claim words it: the customer's stored
location text, or else a location name inside the pickup address, or else the
first active location. -/
def inferLocationSpec (locs : List Location) (ouser : Option User) (pickup : String) :
    Option Location :=
  (locFromUserText locs ouser).orElse
    (fun _ => (locFromPickup locs pickup).orElse (fun _ => (activeLocations locs).head?))

theorem inferLocation_eq_spec (locs : List Location) (ouser : Option User) (pickup : String) :
    inferLocation locs ouser pickup = inferLocationSpec locs ouser pickup := by
  unfold inferLocation inferLocationSpec
  cases hu : locFromUserText locs ouser <;>
    cases hp : locFromPickup locs pickup <;>
      simp [Option.orElse]

theorem signalOnCreate_cases (env : Env) (ouser : User) (o : Order) :
    ((signalOnCreate env ouser o).1 = o)
    ∨ (∃ locId r,
        resolveLocId env.locs o.service_location (some ouser) o.pickup_address = some locId ∧
        o.rider = none ∧ o.order_type = "manual" ∧
        (selectRiderAt env.users locId = some r ∨
          (activeRidersAt env.users locId = [] ∧ selectRiderAny env.users = some r)) ∧
        (signalOnCreate env ouser o).1 = signalAssign o r locId) := by
  unfold signalOnCreate
  repeat' split
  all_goals first
    | (left; rfl)
    | (right
       refine ⟨_, _, by assumption, ?_, ?_, Or.inl (by assumption), rfl⟩ <;> simp_all)
    | (right
       refine ⟨_, _, by assumption, ?_, ?_,
         Or.inr ⟨selectRiderAt_none (by assumption), by assumption⟩, rfl⟩ <;> simp_all)

theorem performCreateAssign_cases (env : Env) (ouser : User) (o : Order) :
    (performCreateAssign env ouser o = o)
    ∨ (∃ locId r, o.rider = none ∧
        resolveLocId env.locs o.service_location (some ouser) o.pickup_address = some locId ∧
        selectRiderAt env.users locId = some r ∧
        performCreateAssign env ouser o = performAssign o r locId) := by
  unfold performCreateAssign
  repeat' split
  all_goals first
    | (left; rfl)
    | (right
       refine ⟨_, _, ?_, by assumption, by assumption, rfl⟩
       simp_all)

theorem assignPendingStep_rider_some (env : Env) (ouser : Option User) (o : Order)
    (rid : Nat) (h : o.rider = some rid) :
    (assignPendingStep env ouser o).rider = some rid := by
  unfold assignPendingStep
  rw [if_pos (by simp [h])]
  exact h

theorem riderAccept_rider_some (actor : User) (o : Order) (act : String) (rid : Nat)
    (h : o.rider = some rid) :
    (riderAccept actor o act).1.rider = some rid := by
  unfold riderAccept
  rw [if_neg (by simp [h])]
  exact h

theorem serializerCreate_status_manual (env : Env) (reqUser : Option User) (guest : User)
    (inp : CreateInput) (oid : Nat) (h : inp.order_type = "manual") :
    (serializerCreate env reqUser guest inp oid).status = "pending_assignment" := by
  unfold serializerCreate
  simp [h]

theorem serializerLoc_none (env : Env) (reqUser : Option User) (guest : User)
    (inp : CreateInput) (hact : activeLocations env.locs = [])
    (hinp : inp.service_location = none)
    (hru : ∀ u, reqUser = some u → u.service_location = none)
    (hg : guest.service_location = none) :
    serializerLoc env reqUser guest inp = none := by
  have hcb : ((createdByUser reqUser inp).bind (fun u => u.service_location)) = none := by
    unfold createdByUser
    cases hr2 : reqUser with
    | none => rfl
    | some u =>
      have hu := hru u hr2
      cases hm : (inp.order_type == "manual") <;> simp [hm, hu]
  have heu : (effectiveUser reqUser guest inp).service_location = none := by
    unfold effectiveUser
    cases hr2 : reqUser with
    | none => exact hg
    | some u =>
      have hu := hru u hr2
      cases hm : (inp.order_type == "manual") <;> simp [hm, hu, hg]
  unfold serializerLoc
  rw [hinp]
  simp [hcb, heu, hact, locFromPickup]

/-! ### Concrete fixtures for witnesses and counterexamples -/

/-- A trivial timestamp parser standing in for `parse_datetime`: any non-empty
string parses to itself. -/
def parseIso : String → Option String := fun s => if s == "" then none else some s

def locJuja : Location := ⟨1, "Juja", true⟩

def riderBob : User :=
  { uid := 10, role := "rider", staff_type := "general", service_location := some 1,
    location := "", phone := "+254700000001", is_active := true, is_staff := false,
    is_superuser := false, completed_jobs := 3 }

def riderAmy : User :=
  { uid := 11, role := "rider", staff_type := "general", service_location := some 1,
    location := "", phone := "+254700000002", is_active := true, is_staff := false,
    is_superuser := false, completed_jobs := 1 }

def adminEve : User :=
  { uid := 99, role := "admin", staff_type := "general", service_location := none,
    location := "", phone := "", is_active := true, is_staff := true,
    is_superuser := true, completed_jobs := 0 }

def staffSue : User :=
  { uid := 20, role := "staff", staff_type := "general", service_location := some 1,
    location := "", phone := "", is_active := true, is_staff := true,
    is_superuser := false, completed_jobs := 0 }

def custCarl : User :=
  { uid := 40, role := "customer", staff_type := "general", service_location := none,
    location := "Juja town", phone := "+254700000009", is_active := true,
    is_staff := false, is_superuser := false, completed_jobs := 0 }

def guestUser : User :=
  { uid := 50, role := "customer", staff_type := "general", service_location := none,
    location := "", phone := "", is_active := false, is_staff := false,
    is_superuser := false, completed_jobs := 0 }

def baseEnv : Env :=
  { users := [riderBob, riderAmy, adminEve, staffSue, custCarl],
    locs := [locJuja], now := "2026-01-01T10:00:00Z", parseDT := parseIso }

def baseOrder : Order :=
  { oid := 1, code := "WW-00001", user := some 40, service_location := some 1,
    status := "in_progress", pickup_address := "Juja stage 5",
    dropoff_address := "Juja gate A", order_type := "online", rider := none,
    washer := none, folder := none, quantity := none, weight_kg := none,
    description := none, actual_price := none, delivered_at := none,
    washed_at := none, folded_at := none, created_by := none }

/-- C6: for every `update_order_status` call (passing the permission and scope
gates) that supplies a (truthy) new status different from the order's current
status, exactly one `status_changed` OrderEvent is appended, with `old` the
pre-call status and `new` the supplied status, which is also the order's status
after the call. -/
theorem claim6 (env : Env) (actor : User) (o : Order) (req : PatchReq) (s : String)
    (hp : hasPermission actor = true) (hsc : scopeRejected actor o = false)
    (hs : req.status = some s) (hne : s ≠ "") (hdiff : o.status ≠ s) :
    ((updateOrderStatus env actor o req).events.filter
        (fun e => e.event_type == "status_changed"))
      = [⟨"status_changed", some actor.uid, EventData.statusChange o.status s⟩]
    ∧ (updateOrderStatus env actor o req).order.status = s := by
  constructor
  · rw [updateOrder_events env actor o req hp, patchEvents_filter_status env actor o req hsc]
    unfold mkStatusEvent
    rw [hs]
    simp [pyTruthy, hne, hdiff]
  · rw [updateOrder_order env actor o req hp]
    unfold patchFinalOrder
    rw [if_neg (by simp [hsc]), patchOrderResult_status env actor o req s hs hne]

theorem claim6_witness :
    ((updateOrderStatus baseEnv adminEve baseOrder { status := some "picked" }).events.filter
        (fun e => e.event_type == "status_changed"))
      = [⟨"status_changed", some adminEve.uid, EventData.statusChange baseOrder.status "picked"⟩]
    ∧ (updateOrderStatus baseEnv adminEve baseOrder { status := some "picked" }).order.status
      = "picked" :=
  claim6 baseEnv adminEve baseOrder { status := some "picked" } "picked" rfl rfl rfl
    (by decide) (by decide)

/-- C7: an `update_order_status` call supplying a status equal to the order's
current status and no detail value differing from the stored one appends zero
OrderEvents and leaves the rider unchanged. -/
theorem claim7 (env : Env) (actor : User) (o : Order) (req : PatchReq)
    (hp : hasPermission actor = true) (hsc : scopeRejected actor o = false)
    (hs : req.status = some o.status)
    (hq : ∀ q, req.quantity = some q → o.quantity = some q)
    (hw : ∀ w, req.weight_kg = some w → o.weight_kg = some w)
    (hd : ∀ d, req.description = some d → o.description = some d)
    (hap : ∀ p, req.actual_price = some p → pyStr o.actual_price = p)
    (hda : ∀ d, req.delivered_at = some d → pyStr o.delivered_at = d) :
    (updateOrderStatus env actor o req).events = []
    ∧ (updateOrderStatus env actor o req).order.rider = o.rider := by
  have hR : statusToReady o req = false := statusToReady_self o req hs
  have hchanged : changedDetailFields o req = [] := by
    unfold changedDetailFields
    have e1 : (match req.quantity with
        | some q => if some q != o.quantity then ["quantity"] else []
        | none => ([] : List String)) = [] := by
      cases h2 : req.quantity with
      | none => rfl
      | some q => simp [hq q h2]
    have e2 : (match req.weight_kg with
        | some w => if some w != o.weight_kg then ["weight_kg"] else []
        | none => ([] : List String)) = [] := by
      cases h2 : req.weight_kg with
      | none => rfl
      | some w => simp [hw w h2]
    have e3 : (match req.description with
        | some d => if some d != o.description then ["description"] else []
        | none => ([] : List String)) = [] := by
      cases h2 : req.description with
      | none => rfl
      | some d => simp [hd d h2]
    have e4 : (match req.actual_price with
        | some p => if pyStr o.actual_price != p then ["actual_price"] else []
        | none => ([] : List String)) = [] := by
      cases h2 : req.actual_price with
      | none => rfl
      | some p => simp [hap p h2]
    have e5 : (match req.delivered_at with
        | some d => if pyStr o.delivered_at != d then ["delivered_at"] else []
        | none => ([] : List String)) = [] := by
      cases h2 : req.delivered_at with
      | none => rfl
      | some d => simp [hda d h2]
    rw [e1, e2, e3, e4, e5]
    rfl
  constructor
  · rw [updateOrder_events env actor o req hp]
    unfold patchEvents
    rw [if_neg (by simp [hsc]), if_neg (by simp [hR])]
    have hst : mkStatusEvent actor o req = [] := by
      unfold mkStatusEvent
      rw [hs]
      simp
    have hdet : mkDetailEvent actor o req = [] := by
      unfold mkDetailEvent
      rw [if_neg (by simp [hchanged])]
    rw [hst, hdet]
    rfl
  · rw [updateOrder_order env actor o req hp]
    unfold patchFinalOrder patchOrderResult
    rw [if_neg (by simp [hsc]), if_neg (by simp [hR]), orderAfterStamps_rider]

theorem claim7_witness :
    (updateOrderStatus baseEnv adminEve baseOrder { status := some "in_progress" }).events = []
    ∧ (updateOrderStatus baseEnv adminEve baseOrder
        { status := some "in_progress" }).order.rider = baseOrder.rider :=
  claim7 baseEnv adminEve baseOrder { status := some "in_progress" } rfl rfl rfl
    nofun nofun nofun nofun nofun

/-- C9: every operation that writes the rider slot — `perform_create`'s
auto-assignment, the creation signal, the full `update_order_status` request
(ready-transition assignment included), the rider accept action, and one step of
the `assign_pending_orders` command — leaves an already populated rider field
unchanged. -/
theorem claim9 :
    (∀ (env : Env) (ouser : User) (o : Order) (rid : Nat), o.rider = some rid →
      (performCreateAssign env ouser o).rider = some rid)
    ∧ (∀ (env : Env) (ouser : User) (o : Order) (rid : Nat), o.rider = some rid →
      (signalOnCreate env ouser o).1.rider = some rid)
    ∧ (∀ (env : Env) (actor : User) (o : Order) (req : PatchReq) (rid : Nat),
      o.rider = some rid → (updateOrderStatus env actor o req).order.rider = some rid)
    ∧ (∀ (actor : User) (o : Order) (act : String) (rid : Nat), o.rider = some rid →
      (riderAccept actor o act).1.rider = some rid)
    ∧ (∀ (env : Env) (ouser : Option User) (o : Order) (rid : Nat), o.rider = some rid →
      (assignPendingStep env ouser o).rider = some rid) := by
  refine ⟨?_, ?_, ?_, ?_, ?_⟩
  · intro env ouser o rid h
    rcases performCreateAssign_cases env ouser o with heq | ⟨locId, r, hnone, _, _, _⟩
    · rw [heq]; exact h
    · rw [h] at hnone; cases hnone
  · intro env ouser o rid h
    rcases signalOnCreate_cases env ouser o with heq | ⟨locId, r, _, hnone, _, _, _⟩
    · rw [heq]; exact h
    · rw [h] at hnone; cases hnone
  · intro env actor o req rid h
    unfold updateOrderStatus
    split
    · exact h
    · show (patchBody env actor o req).order.rider = some rid
      unfold patchBody patchFinalOrder
      split
      · exact h
      · exact patchOrderResult_rider_some env actor o req rid h
  · exact riderAccept_rider_some
  · exact assignPendingStep_rider_some

theorem claim9_witness :
    (performCreateAssign baseEnv custCarl { baseOrder with rider := some 10 }).rider = some 10
    ∧ (signalOnCreate baseEnv custCarl
        { baseOrder with rider := some 10, order_type := "manual" }).1.rider = some 10
    ∧ (updateOrderStatus baseEnv adminEve { baseOrder with rider := some 10, status := "washed" }
        { status := some "ready" }).order.rider = some 10
    ∧ (riderAccept riderAmy { baseOrder with rider := some 10, status := "requested" }
        "accept").1.rider = some 10
    ∧ (assignPendingStep baseEnv none { baseOrder with rider := some 10 }).rider = some 10 :=
  ⟨claim9.1 baseEnv custCarl _ 10 rfl,
   claim9.2.1 baseEnv custCarl _ 10 rfl,
   claim9.2.2.1 baseEnv adminEve _ { status := some "ready" } 10 rfl,
   claim9.2.2.2.1 riderAmy _ "accept" 10 rfl,
   claim9.2.2.2.2 baseEnv none _ 10 rfl⟩

/-- C10: the location-scope rejection of `update_order_status` (both the
permission class and the in-view check) fires only for staff non-superuser
actors; a non-staff authenticated actor's update goes through with no ownership
or location check — the status mutation is applied even to an order the actor
does not own, at a location the actor does not belong to. -/
theorem claim10 :
    (∀ (env : Env) (actor : User) (o : Order) (req : PatchReq),
      (updateOrderStatus env actor o req).resp = Resp.forbidden →
      actor.is_staff = true ∧ actor.is_superuser = false)
    ∧ (∀ (env : Env) (actor : User) (o : Order) (req : PatchReq) (s : String),
      actor.is_staff = false → req.status = some s → s ≠ "" →
      o.user ≠ some actor.uid → o.service_location ≠ actor.service_location →
      (updateOrderStatus env actor o req).resp ≠ Resp.forbidden
        ∧ (updateOrderStatus env actor o req).order.status = s) := by
  constructor
  · intro env actor o req h
    by_cases hp : hasPermission actor = true
    · rw [updateOrder_resp env actor o req hp] at h
      exact scopeRejected_true (patchResp_forbidden h)
    · exact hasPermission_false (by simpa using hp)
  · intro env actor o req s hstaff hs hne hown hloc
    have hp : hasPermission actor = true := hasPermission_not_staff hstaff
    have hsc : scopeRejected actor o = false := scopeRejected_not_staff o hstaff
    constructor
    · rw [updateOrder_resp env actor o req hp]
      intro h
      have := patchResp_forbidden h
      rw [hsc] at this
      cases this
    · rw [updateOrder_order env actor o req hp]
      unfold patchFinalOrder
      rw [if_neg (by simp [hsc]), patchOrderResult_status env actor o req s hs hne]

theorem claim10_witness :
    (updateOrderStatus baseEnv custCarl { baseOrder with user := some 50 }
        { status := some "cancelled" }).resp ≠ Resp.forbidden
    ∧ (updateOrderStatus baseEnv custCarl
        { baseOrder with user := some 50 }
        { status := some "cancelled" }).order.status = "cancelled" :=
  claim10.2 baseEnv custCarl { baseOrder with user := some 50 }
    { status := some "cancelled" } "cancelled" rfl rfl (by decide) (by decide) (by decide)

/-- C1: for every successful rider assignment — the ready-transition assignment,
`perform_create`'s creation-time assignment, and the creation signal's
assignment for manual orders — the selected worker is an active user with role
rider whose `completed_jobs` is minimal among active riders at the order's
resolved location; and (on the one path that has the fallback) when that
location has no active rider, an active rider with minimal `completed_jobs`
system-wide is selected (`fairPick` captures both cases). -/
theorem claim1 :
    (∀ (env : Env) (o : Order), (readyAssign env o).2.2 = true →
      ∃ locId r, o.service_location = some locId ∧ o.rider = none ∧
        (readyAssign env o).1.rider = some r.uid ∧ fairPick env.users locId r)
    ∧ (∀ (env : Env) (ouser : User) (o : Order) (rid : Nat),
      o.rider = none → (performCreateAssign env ouser o).rider = some rid →
      ∃ locId r,
        resolveLocId env.locs o.service_location (some ouser) o.pickup_address = some locId ∧
        r.uid = rid ∧ (performCreateAssign env ouser o).service_location = some locId ∧
        fairPick env.users locId r)
    ∧ (∀ (env : Env) (ouser : User) (o : Order) (rid : Nat),
      o.rider = none → (signalOnCreate env ouser o).1.rider = some rid →
      ∃ locId r,
        resolveLocId env.locs o.service_location (some ouser) o.pickup_address = some locId ∧
        r.uid = rid ∧ fairPick env.users locId r) := by
  refine ⟨?_, ?_, ?_⟩
  · intro env o h
    rcases readyAssign_cases env o with ⟨locId, r, hloc, hnone, hsel, heq⟩ | ⟨_, hfalse⟩
    · refine ⟨locId, r, hloc, hnone, ?_, selectRiderAt_fair hsel⟩
      rw [heq]
      rfl
    · rw [hfalse] at h; cases h
  · intro env ouser o rid h hr
    rcases performCreateAssign_cases env ouser o with heq | ⟨locId, r, _, hres, hsel, heq⟩
    · rw [heq, h] at hr; cases hr
    · refine ⟨locId, r, hres, ?_, ?_, selectRiderAt_fair hsel⟩
      · rw [heq] at hr
        simpa [performAssign] using hr
      · rw [heq]
        rfl
  · intro env ouser o rid h hr
    rcases signalOnCreate_cases env ouser o with heq | ⟨locId, r, hres, _, _, hsel, heq⟩
    · rw [heq, h] at hr; cases hr
    · refine ⟨locId, r, hres, ?_, ?_⟩
      · rw [heq] at hr
        simpa [signalAssign] using hr
      · rcases hsel with hsel | ⟨hempty, hany⟩
        · exact selectRiderAt_fair hsel
        · exact selectRiderAny_fair hempty hany

theorem claim1_witness :
    ∃ locId r, ({ baseOrder with status := "washed" } : Order).service_location = some locId
      ∧ ({ baseOrder with status := "washed" } : Order).rider = none
      ∧ (readyAssign baseEnv { baseOrder with status := "washed" }).1.rider = some r.uid
      ∧ fairPick baseEnv.users locId r :=
  claim1.1 baseEnv { baseOrder with status := "washed" } rfl

/-- C2 counterexample: a concrete `update_order_status` call supplying only a
parseable `delivered_at` sets the field although the order never transitioned to
`delivered` (status stays `in_progress`, no `status_changed` event at all), and
a concrete transition to `delivered` leaves `delivered_at` null. -/
theorem claim2_counterexample :
    ((updateOrderStatus baseEnv adminEve baseOrder
        { delivered_at := some "2026-01-02T08:00:00" }).order.delivered_at
      = some "2026-01-02T08:00:00"
     ∧ (updateOrderStatus baseEnv adminEve baseOrder
        { delivered_at := some "2026-01-02T08:00:00" }).order.status = "in_progress"
     ∧ ((updateOrderStatus baseEnv adminEve baseOrder
        { delivered_at := some "2026-01-02T08:00:00" }).events.filter
          (fun e => e.event_type == "status_changed")) = [])
    ∧ ((updateOrderStatus baseEnv adminEve baseOrder
        { status := some "delivered" }).order.status = "delivered"
     ∧ (updateOrderStatus baseEnv adminEve baseOrder
        { status := some "delivered" }).order.delivered_at = none) :=
  ⟨⟨rfl, rfl, rfl⟩, rfl, rfl⟩

/-- C2 amended: `update_order_status` sets `delivered_at` exactly when the
request supplies a value that `parse_datetime` accepts, independently of any
status transition; a transition to `delivered` does not itself write
`delivered_at`. -/
theorem claim2 (env : Env) (actor : User) (o : Order) (req : PatchReq)
    (hp : hasPermission actor = true) (hsc : scopeRejected actor o = false) :
    (updateOrderStatus env actor o req).order.delivered_at
      = (match deliveredParsed env req with
         | some ts => some ts
         | none => o.delivered_at) := by
  rw [updateOrder_order env actor o req hp]
  unfold patchFinalOrder
  rw [if_neg (by simp [hsc]), patchOrderResult_delivered]

theorem claim2_witness :
    (updateOrderStatus baseEnv adminEve baseOrder
        { delivered_at := some "2026-03-04T00:00:00" }).order.delivered_at
      = some "2026-03-04T00:00:00" :=
  claim2 baseEnv adminEve baseOrder { delivered_at := some "2026-03-04T00:00:00" } rfl rfl

/-- C3 counterexample: a ready transition on a non-manual order whose rider was
already assigned before the call still appends one `assigned_rider` OrderEvent,
although no new assignment occurred. -/
theorem claim3_counterexample :
    ({ baseOrder with status := "washed", rider := some 10 } : Order).rider = some 10
    ∧ ((updateOrderStatus baseEnv adminEve { baseOrder with status := "washed", rider := some 10 }
        { status := some "ready" }).events.filter
          (fun e => e.event_type == "assigned_rider")).length = 1 :=
  ⟨rfl, rfl⟩

/-- C3 amended: in a ready transition (with the rider notification not raising),
exactly one `assigned_rider` event is appended iff the ready block's
`assigned_rider` local is non-null; that local is the newly selected rider on a
fresh assignment, the order's existing rider row for a non-manual order already
assigned, and null for a manual order already assigned — so pre-assigned
non-manual orders do get a (spurious) `assigned_rider` event and pre-assigned
manual orders do not. -/
theorem claim3 :
    (∀ (env : Env) (actor : User) (o : Order) (req : PatchReq),
      hasPermission actor = true → scopeRejected actor o = false →
      env.notifyRiderRaises = false →
      ((updateOrderStatus env actor o req).events.filter
          (fun e => e.event_type == "assigned_rider")).length
        = (if statusToReady o req && ((patchAssigned env actor o req).1.isSome)
           then 1 else 0))
    ∧ (∀ (env : Env) (o : Order) (rid : Nat) (u : User),
      o.order_type ≠ "manual" → o.rider = some rid → findUser env.users (some rid) = some u →
      (readyAssign env o).2 = (some u, false))
    ∧ (∀ (env : Env) (o : Order) (rid : Nat),
      o.order_type = "manual" → o.rider = some rid →
      (readyAssign env o).2 = (none, false)) := by
  refine ⟨?_, ?_, ?_⟩
  · intro env actor o req hp hsc hnr
    rw [updateOrder_events env actor o req hp]
    unfold patchEvents
    rw [if_neg (by simp [hsc]), List.filter_append, List.filter_append,
        mkStatusEvent_filter_assigned, mkDetailEvent_filter_assigned]
    simp only [List.nil_append]
    by_cases hR : statusToReady o req
    · rw [if_pos hR]
      cases hA : (patchAssigned env actor o req).1 with
      | some r => simp [hA, hR, hnr]
      | none => simp [hA, hR]
    · rw [if_neg hR]
      simp [hR]
  · intro env o rid u hm h hu
    unfold readyAssign
    rw [if_neg (by simp [hm]), if_neg (by simp [h]), h, hu]
  · intro env o rid hm h
    unfold readyAssign
    rw [if_pos (by simp [hm]), if_neg (by simp [h])]

theorem claim3_witness :
    ((updateOrderStatus baseEnv adminEve
        { baseOrder with status := "washed", rider := some 10, order_type := "manual" }
        { status := some "ready" }).events.filter
          (fun e => e.event_type == "assigned_rider")).length = 0 := by
  have h := claim3.1 baseEnv adminEve
    { baseOrder with status := "washed", rider := some 10, order_type := "manual" }
    { status := some "ready" } rfl rfl rfl
  rw [h]
  rfl

/-- C4 counterexample: a concrete manual order creation in which the creation
signal's opportunistic assignment succeeds (a rider is attached) while the
persisted status remains `pending_assignment`, not `requested`. -/
theorem claim4_counterexample :
    (createOrder baseEnv (some staffSue) guestUser
        { order_type := "manual", pickup_address := "walk in",
          dropoff_address := "To be assigned" } 7).1.rider = some 11
    ∧ (createOrder baseEnv (some staffSue) guestUser
        { order_type := "manual", pickup_address := "walk in",
          dropoff_address := "To be assigned" } 7).1.status = "pending_assignment" :=
  ⟨rfl, rfl⟩

/-- C4 amended: every manual order is persisted by the serializer with status
`pending_assignment` regardless of location resolution; the creation signal's
successful assignment keeps the status `pending_assignment`; only the
`perform_create` fallback assignment (reached when the order still has no
rider) advances `pending_assignment` to `requested`. -/
theorem claim4 :
    (∀ (env : Env) (reqUser : Option User) (guest : User) (inp : CreateInput) (oid : Nat),
      inp.order_type = "manual" →
      (serializerCreate env reqUser guest inp oid).status = "pending_assignment")
    ∧ (∀ (env : Env) (ouser : User) (o : Order) (rid : Nat),
      o.rider = none → (signalOnCreate env ouser o).1.rider = some rid →
      (signalOnCreate env ouser o).1.status = "pending_assignment")
    ∧ (∀ (env : Env) (ouser : User) (o : Order) (rid : Nat),
      o.rider = none → o.status = "pending_assignment" →
      (performCreateAssign env ouser o).rider = some rid →
      (performCreateAssign env ouser o).status = "requested") := by
  refine ⟨serializerCreate_status_manual, ?_, ?_⟩
  · intro env ouser o rid h hr
    rcases signalOnCreate_cases env ouser o with heq | ⟨locId, r, _, _, _, _, heq⟩
    · rw [heq, h] at hr; cases hr
    · rw [heq]
      rfl
  · intro env ouser o rid h hst hr
    rcases performCreateAssign_cases env ouser o with heq | ⟨locId, r, _, _, _, heq⟩
    · rw [heq, h] at hr; cases hr
    · rw [heq]
      simp [performAssign, hst]

theorem claim4_witness :
    (serializerCreate baseEnv (some staffSue) guestUser
        { order_type := "manual", pickup_address := "walk in",
          dropoff_address := "To be assigned" } 7).status = "pending_assignment"
    ∧ (signalOnCreate baseEnv guestUser
        { baseOrder with rider := none, order_type := "manual" }).1.status
      = "pending_assignment"
    ∧ (performCreateAssign baseEnv custCarl
        { baseOrder with rider := none, status := "pending_assignment" }).status
      = "requested" :=
  ⟨claim4.1 baseEnv (some staffSue) guestUser _ 7 rfl,
   claim4.2.1 baseEnv guestUser _ 11 rfl rfl,
   claim4.2.2 baseEnv custCarl _ 11 rfl rfl rfl⟩

/-- C5: the location-inference chain tries, in priority order, the customer's
stored location text (case-insensitively against active location names), then a
case-insensitive substring match of an active location name inside the pickup
address, then the first active location (`inferLocationSpec` is that chain
verbatim); it yields no location exactly when zero active locations exist, and
in that case order creation still succeeds with `service_location` and `rider`
null. -/
theorem claim5 :
    (∀ (locs : List Location) (ouser : Option User) (pickup : String),
      inferLocation locs ouser pickup = inferLocationSpec locs ouser pickup)
    ∧ (∀ (locs : List Location) (ouser : Option User) (pickup : String),
      inferLocation locs ouser pickup = none ↔ activeLocations locs = [])
    ∧ (∀ (env : Env) (reqUser : Option User) (guest : User) (inp : CreateInput) (oid : Nat),
      activeLocations env.locs = [] → inp.service_location = none →
      (∀ u, reqUser = some u → u.service_location = none) → guest.service_location = none →
      (createOrder env reqUser guest inp oid).1.service_location = none
        ∧ (createOrder env reqUser guest inp oid).1.rider = none) := by
  refine ⟨inferLocation_eq_spec, inferLocation_none_iff, ?_⟩
  intro env reqUser guest inp oid hact hinp hru hg
  have h0loc : (serializerCreate env reqUser guest inp oid).service_location = none :=
    serializerLoc_none env reqUser guest inp hact hinp hru hg
  have h0rider : (serializerCreate env reqUser guest inp oid).rider = none := rfl
  have hresolve : ∀ pickup,
      resolveLocId env.locs (serializerCreate env reqUser guest inp oid).service_location
        (some (effectiveUser reqUser guest inp)) pickup = none := by
    intro pickup
    unfold resolveLocId
    rw [h0loc]
    simp [(inferLocation_none_iff env.locs _ pickup).mpr hact]
  have h1 : (signalOnCreate env (effectiveUser reqUser guest inp)
      (serializerCreate env reqUser guest inp oid)).1
      = serializerCreate env reqUser guest inp oid := by
    rcases signalOnCreate_cases env (effectiveUser reqUser guest inp)
        (serializerCreate env reqUser guest inp oid) with heq | ⟨locId, r, hres, _, _, _, _⟩
    · exact heq
    · rw [hresolve _] at hres; cases hres
  have h2 : performCreateAssign env (effectiveUser reqUser guest inp)
      ((signalOnCreate env (effectiveUser reqUser guest inp)
        (serializerCreate env reqUser guest inp oid)).1)
      = (signalOnCreate env (effectiveUser reqUser guest inp)
        (serializerCreate env reqUser guest inp oid)).1 := by
    rcases performCreateAssign_cases env (effectiveUser reqUser guest inp)
        ((signalOnCreate env (effectiveUser reqUser guest inp)
          (serializerCreate env reqUser guest inp oid)).1) with heq | ⟨locId, r, _, hres, _, _⟩
    · exact heq
    · rw [h1, hresolve _] at hres; cases hres
  constructor
  · show (performCreateAssign env (effectiveUser reqUser guest inp)
      ((signalOnCreate env (effectiveUser reqUser guest inp)
        (serializerCreate env reqUser guest inp oid)).1)).service_location = none
    rw [h2, h1]
    exact h0loc
  · show (performCreateAssign env (effectiveUser reqUser guest inp)
      ((signalOnCreate env (effectiveUser reqUser guest inp)
        (serializerCreate env reqUser guest inp oid)).1)).rider = none
    rw [h2, h1]
    exact h0rider

theorem claim5_witness :
    (inferLocation [locJuja] (some custCarl) "x"
      = inferLocationSpec [locJuja] (some custCarl) "x")
    ∧ (inferLocation [⟨1, "Juja", false⟩] none "anywhere" = none
        ↔ activeLocations [⟨1, "Juja", false⟩] = [])
    ∧ ((createOrder { baseEnv with locs := [⟨1, "Juja", false⟩] } (some custCarl) guestUser
        { order_type := "online", pickup_address := "somewhere",
          dropoff_address := "x" } 8).1.service_location = none
      ∧ (createOrder { baseEnv with locs := [⟨1, "Juja", false⟩] } (some custCarl) guestUser
        { order_type := "online", pickup_address := "somewhere",
          dropoff_address := "x" } 8).1.rider = none) :=
  ⟨claim5.1 [locJuja] (some custCarl) "x",
   claim5.2.1 [⟨1, "Juja", false⟩] none "anywhere",
   claim5.2.2 { baseEnv with locs := [⟨1, "Juja", false⟩] } (some custCarl) guestUser
     { order_type := "online", pickup_address := "somewhere", dropoff_address := "x" } 8
     rfl rfl (fun u hu => by cases hu; rfl) rfl⟩

/-- An environment with the seven failure oracles replaced (used to state that
the persisted outcome does not depend on them). -/
def setFlags (env : Env) (f1 f2 f3 f4 f5 f6 f7 : Bool) : Env :=
  { env with signalNotifyRaises := f1, notifyFolderRaises := f2, smsFolderRaises := f3,
             notifyRiderRaises := f4, smsRiderRaises := f5, smsCustomerReadyRaises := f6,
             smsDeliveredRaises := f7 }

theorem mkStatusEvent_filter_ne_assigned (actor : User) (o : Order) (req : PatchReq) :
    (mkStatusEvent actor o req).filter (fun e => e.event_type != "assigned_rider")
      = mkStatusEvent actor o req := by
  unfold mkStatusEvent
  split <;> first | rfl | (split <;> rfl)

theorem mkDetailEvent_filter_ne_assigned (actor : User) (o : Order) (req : PatchReq) :
    (mkDetailEvent actor o req).filter (fun e => e.event_type != "assigned_rider")
      = mkDetailEvent actor o req := by
  unfold mkDetailEvent
  split <;> rfl

theorem patchEvents_filter_ne_assigned (env : Env) (actor : User) (o : Order) (req : PatchReq) :
    (patchEvents env actor o req).filter (fun e => e.event_type != "assigned_rider")
      = (if scopeRejected actor o then []
         else mkStatusEvent actor o req ++ mkDetailEvent actor o req) := by
  unfold patchEvents
  split
  · rfl
  · have hc : ((if statusToReady o req then
        match (patchAssigned env actor o req).1 with
        | some r =>
          if env.notifyRiderRaises then []
          else [⟨"assigned_rider", some actor.uid, EventData.assignedRider r.uid⟩]
        | none => []
      else []) : List OrderEvent).filter (fun e => e.event_type != "assigned_rider") = [] := by
      split
      · split
        · split <;> rfl
        · rfl
      · rfl
    rw [List.filter_append, List.filter_append, mkStatusEvent_filter_ne_assigned,
        mkDetailEvent_filter_ne_assigned, hc]
    simp

/-- C8 counterexample: when the ready block's rider in-app notification raises
(views.py 544-549, the one call not wrapped in a local `try/except`), the
request returns a 500 error response instead of the updated order. -/
theorem claim8_counterexample :
    (updateOrderStatus { baseEnv with notifyRiderRaises := true } adminEve
        { baseOrder with status := "washed", rider := some 10 }
        { status := some "ready" }).resp = Resp.serverError := rfl

/-- C8 amended: no notification/SMS failure ever rolls back the persisted order
mutation or the `status_changed` / `details_updated` audit events (both are
independent of all seven failure oracles); every SMS failure and every locally
caught notification failure leaves the response unchanged; the only failure
that produces an error response is the uncaught rider in-app notification of
the ready block. -/
theorem claim8 :
    (∀ (env : Env) (actor : User) (o : Order) (req : PatchReq)
        (f1 f2 f3 f4 f5 f6 f7 : Bool),
      (updateOrderStatus (setFlags env f1 f2 f3 f4 f5 f6 f7) actor o req).order
        = (updateOrderStatus env actor o req).order)
    ∧ (∀ (env : Env) (actor : User) (o : Order) (req : PatchReq)
        (f1 f2 f3 f4 f5 f6 f7 : Bool),
      ((updateOrderStatus (setFlags env f1 f2 f3 f4 f5 f6 f7) actor o req).events.filter
          (fun e => e.event_type != "assigned_rider"))
        = ((updateOrderStatus env actor o req).events.filter
          (fun e => e.event_type != "assigned_rider")))
    ∧ (∀ (env : Env) (actor : User) (o : Order) (req : PatchReq)
        (f1 f2 f3 f5 f6 f7 : Bool),
      (updateOrderStatus (setFlags env f1 f2 f3 env.notifyRiderRaises f5 f6 f7)
          actor o req).resp
        = (updateOrderStatus env actor o req).resp)
    ∧ (∀ (env : Env) (actor : User) (o : Order) (req : PatchReq),
      (updateOrderStatus env actor o req).resp = Resp.serverError →
      env.notifyRiderRaises = true) := by
  refine ⟨?_, ?_, ?_, ?_⟩
  · intro env actor o req f1 f2 f3 f4 f5 f6 f7
    unfold updateOrderStatus
    split <;> rfl
  · intro env actor o req f1 f2 f3 f4 f5 f6 f7
    unfold updateOrderStatus
    split
    · rfl
    · show (patchBody _ actor o req).events.filter _ = (patchBody env actor o req).events.filter _
      unfold patchBody
      rw [patchEvents_filter_ne_assigned, patchEvents_filter_ne_assigned]
  · intro env actor o req f1 f2 f3 f5 f6 f7
    unfold updateOrderStatus
    split <;> rfl
  · intro env actor o req h
    by_cases hp : hasPermission actor = true
    · rw [updateOrder_resp env actor o req hp] at h
      exact patchResp_serverError h
    · have hp2 : hasPermission actor = false := by simpa using hp
      unfold updateOrderStatus at h
      rw [if_pos (by simp [hp2])] at h
      simp at h

theorem claim8_witness :
    ({ baseEnv with notifyRiderRaises := true } : Env).notifyRiderRaises = true
    ∧ (updateOrderStatus (setFlags baseEnv false false false false false false true)
          adminEve baseOrder { status := some "delivered" }).resp
      = (updateOrderStatus baseEnv adminEve baseOrder { status := some "delivered" }).resp :=
  ⟨claim8.2.2.2 { baseEnv with notifyRiderRaises := true } adminEve
      { baseOrder with status := "washed", rider := some 10 } { status := some "ready" } rfl,
   claim8.2.2.1 baseEnv adminEve baseOrder { status := some "delivered" }
     false false false false false true⟩

end WildWash
